import Mathlib

/-!
Shallow embedding of the libretro host in src/MacMAME/Core/LibretroCore.c.

The C file keeps all host state in file-scope statics.  We gather the
statics into two records: `CbState` holds the fields a loaded module can
mutate through the registered callbacks (pixel format, video geometry,
framebuffer, audio queue), and `HostState` holds the rest (the module
handle, the game-loaded flag, cached timing, cached system info, the two
directory strings).

A loaded module is modelled by `Module`: each dynamic symbol is an
`Option` (bound or not).  Entry points that only return a value are
modelled by that value; `void`-returning entry points that may re-enter
the host through its registered callbacks are modelled as functions on
`CbState`.  C `double`s here are only ever stored and returned, never
computed with, so they are carried as rationals.  Byte buffers are lists
of `Nat`; `malloc` is assumed to succeed (a fresh buffer is modelled as a
zero list, which the subsequent full `memcpy` overwrites); the contents
of the audio ring are the frames at indices below the C `audio_frames`
counter, so that counter is the length of the `audio_data` list.
-/

namespace LibretroCore

/-- Pixel format constants from LibretroCore.h. -/
def RETRO_PIXEL_FORMAT_0RGB1555 : Int := 0

def RETRO_PIXEL_FORMAT_XRGB8888 : Int := 1

def RETRO_PIXEL_FORMAT_RGB565 : Int := 2

/-- Environment command codes from LibretroCore.h (only those the
dispatch in `environment_callback` mentions). -/
def RETRO_ENVIRONMENT_GET_CAN_DUPE : Nat := 3

def RETRO_ENVIRONMENT_GET_SYSTEM_DIRECTORY : Nat := 9

def RETRO_ENVIRONMENT_SET_PIXEL_FORMAT : Nat := 10

def RETRO_ENVIRONMENT_GET_VARIABLE : Nat := 15

def RETRO_ENVIRONMENT_SET_VARIABLES : Nat := 16

def RETRO_ENVIRONMENT_GET_VARIABLE_UPDATE : Nat := 17

def RETRO_ENVIRONMENT_SET_SUPPORT_NO_GAME : Nat := 18

def RETRO_ENVIRONMENT_GET_LOG_INTERFACE : Nat := 27

def RETRO_ENVIRONMENT_GET_CORE_ASSETS_DIRECTORY : Nat := 30

def RETRO_ENVIRONMENT_GET_SAVE_DIRECTORY : Nat := 31

def RETRO_ENVIRONMENT_SET_CORE_OPTIONS_V2 : Nat := 67

def MAX_AUDIO_FRAMES : Nat := 8192

/-- struct retro_system_info; the C struct holds `const char *` that may
be NULL, read back through getters that map NULL to ""; we carry the
strings directly. -/
structure SystemInfo where
  library_name : String
  library_version : String
  valid_extensions : String
  need_fullpath : Bool
  block_extract : Bool
deriving Repr, DecidableEq

/-- `memset(&system_info, 0, sizeof(system_info))`. -/
def emptySystemInfo : SystemInfo :=
  { library_name := "", library_version := "", valid_extensions := ""
    need_fullpath := false, block_extract := false }

/-- struct retro_system_av_info (geometry + timing), flattened. -/
structure AvInfo where
  base_width : Nat
  base_height : Nat
  max_width : Nat
  max_height : Nat
  aspect_ratio : ℚ
  fps : ℚ
  sample_rate : ℚ
deriving Repr, DecidableEq

/-- The statics of LibretroCore.c that the registered callbacks can
mutate.  `audio_allocated` mirrors `audio_buffer != NULL`;
`audio_data` lists the frames stored at indices below the C
`audio_frames` counter, so `audio_data.length` is that counter. -/
structure CbState where
  pixel_format : Int
  video_width : Nat
  video_height : Nat
  video_pitch : Nat
  framebuffer : Option (List Nat)
  framebuffer_size : Nat
  audio_allocated : Bool
  audio_data : List (Int × Int)

/-- A dynamically loaded module: one field per `retro_*` symbol the
loader resolves.  `none` = `dlsym` returned NULL.  Value-returning entry
points are modelled by their value; `void` entry points that may call
back into the host are functions on `CbState`. -/
structure Module where
  set_environment : Bool
  set_video_refresh : Bool
  set_audio_sample : Bool
  set_audio_sample_batch : Bool
  set_input_poll : Bool
  set_input_state : Bool
  init : Option (CbState → CbState)
  deinit : Option (CbState → CbState)
  api_version : Option Nat
  get_system_info : Option SystemInfo
  get_system_av_info : Option AvInfo
  set_controller_port_device : Bool
  reset : Option (CbState → CbState)
  run : Option (CbState → CbState)
  serialize_size : Option Nat
  serialize : Option Bool
  unserialize : Option Bool
  load_game : Option Bool
  unload_game : Option (CbState → CbState)
  get_memory_data : Bool
  get_memory_size : Option Nat

/-- All host statics: `core = some m` mirrors `core_handle != NULL`
with `m` the bound entry-point table. -/
structure HostState where
  core : Option Module
  game_loaded : Bool
  cb : CbState
  video_fps : ℚ
  audio_sample_rate : ℚ
  system_info : SystemInfo
  system_directory : String
  save_directory : String

/-- Initial values of the statics at lines 17-37 of LibretroCore.c. -/
def cb0 : CbState :=
  { pixel_format := RETRO_PIXEL_FORMAT_XRGB8888
    video_width := 0, video_height := 0, video_pitch := 0
    framebuffer := none, framebuffer_size := 0
    audio_allocated := false, audio_data := [] }

def initialState : HostState :=
  { core := none, game_loaded := false, cb := cb0
    video_fps := 60, audio_sample_rate := 44100
    system_info := emptySystemInfo
    system_directory := "", save_directory := "" }

/-- video_refresh_callback (LibretroCore.c lines 73-95).  `data = none`
is the NULL frame-dupe pointer.  `memcpy` into a buffer larger than
`required_size` leaves the tail bytes in place. -/
def video_refresh_callback (data : Option (List Nat))
    (width height pitch : Nat) (s : CbState) : CbState :=
  match data with
  | none => s
  | some src =>
    let s1 := { s with video_width := width, video_height := height
                       video_pitch := pitch }
    let required_size := height * pitch
    let s2 :=
      if required_size > s1.framebuffer_size then
        { s1 with framebuffer := some (List.replicate required_size 0)
                  framebuffer_size := required_size }
      else s1
    match s2.framebuffer with
    | some fb =>
        { s2 with framebuffer := some (src.take required_size ++ fb.drop required_size) }
    | none => s2

/-- audio_sample_callback (lines 97-103). -/
def audio_sample_callback (left right : Int) (s : CbState) : CbState :=
  if s.audio_data.length < MAX_AUDIO_FRAMES ∧ s.audio_allocated = true then
    { s with audio_data := s.audio_data ++ [(left, right)] }
  else s

/-- audio_sample_batch_callback (lines 105-119); returns the accepted
frame count and the new state. -/
def audio_sample_batch_callback (data : List (Int × Int)) (frames : Nat)
    (s : CbState) : Nat × CbState :=
  if s.audio_allocated = false then (0, s)
  else
    let to_copy :=
      if s.audio_data.length + frames > MAX_AUDIO_FRAMES then
        MAX_AUDIO_FRAMES - s.audio_data.length
      else frames
    if to_copy > 0 then
      (to_copy, { s with audio_data := s.audio_data ++ data.take to_copy })
    else (to_copy, s)

/-- environment_callback (lines 149-200).  `data` is the `int` payload
of set-pixel-format; for the other commands the payload is an
out-parameter in caller memory and is not part of host state.  The
result is the boolean returned to the module together with the updated
host-visible state. -/
def environment_callback (cmd : Nat) (data : Int) (s : CbState) : Bool × CbState :=
  if cmd = RETRO_ENVIRONMENT_GET_LOG_INTERFACE then (true, s)
  else if cmd = RETRO_ENVIRONMENT_GET_CAN_DUPE then (true, s)
  else if cmd = RETRO_ENVIRONMENT_SET_PIXEL_FORMAT then
    (true, { s with pixel_format := data })
  else if cmd = RETRO_ENVIRONMENT_GET_SYSTEM_DIRECTORY then (true, s)
  else if cmd = RETRO_ENVIRONMENT_GET_SAVE_DIRECTORY then (true, s)
  else if cmd = RETRO_ENVIRONMENT_GET_CORE_ASSETS_DIRECTORY then (true, s)
  else if cmd = RETRO_ENVIRONMENT_SET_SUPPORT_NO_GAME then (true, s)
  else if cmd = RETRO_ENVIRONMENT_GET_VARIABLE then (false, s)
  else if cmd = RETRO_ENVIRONMENT_SET_VARIABLES then (true, s)
  else if cmd = RETRO_ENVIRONMENT_SET_CORE_OPTIONS_V2 then (true, s)
  else if cmd = RETRO_ENVIRONMENT_GET_VARIABLE_UPDATE then (true, s)
  else (false, s)

/-- libretro_unload_game (lines 374-379): everything, including the
clearing of `game_loaded`, sits under the guard
`core_handle && core_unload_game && game_loaded`. -/
def libretro_unload_game (h : HostState) : HostState :=
  match h.core with
  | some m =>
    match m.unload_game with
    | some f =>
      if h.game_loaded then { h with cb := f h.cb, game_loaded := false }
      else h
    | none => h
  | none => h

/-- libretro_unload_core (lines 275-294): unload the game if one is
loaded, call deinit if bound and close the handle, free the
framebuffer, free the audio buffer (the C code does not reset
`audio_frames` here), clear the cached system info. -/
def libretro_unload_core (h : HostState) : HostState :=
  let h1 := if h.game_loaded then libretro_unload_game h else h
  let h2 :=
    match h1.core with
    | some m =>
      let cb2 :=
        match m.deinit with
        | some f => f h1.cb
        | none => h1.cb
      { h1 with cb := cb2, core := none }
    | none => h1
  { h2 with
      cb := { h2.cb with framebuffer := none, framebuffer_size := 0
                         audio_allocated := false }
      system_info := emptySystemInfo }

/-- libretro_load_core (lines 204-273).  `dlopen_result` stands for the
outcome of `dlopen` + the 21 `dlsym` lookups: `none` = open failed,
`some m` = opened with symbol table `m`.  On the success path the
module's `retro_init` may re-enter the host through the environment
callback, hence the `init` effect; `retro_get_system_info` fills the
cache when bound; a fresh audio buffer is allocated (the C code leaves
`audio_frames` untouched here). -/
def libretro_load_core (dlopen_result : Option Module) (h : HostState) :
    Bool × HostState :=
  let h1 := if h.core.isSome then libretro_unload_core h else h
  match dlopen_result with
  | none => (false, h1)
  | some m =>
    if m.init.isNone || m.deinit.isNone || m.run.isNone || m.load_game.isNone then
      (false, h1)
    else
      let cb1 :=
        match m.init with
        | some f => f h1.cb
        | none => h1.cb
      let si :=
        match m.get_system_info with
        | some i => i
        | none => h1.system_info
      (true, { h1 with core := some m
                       cb := { cb1 with audio_allocated := true }
                       system_info := si })

/-- libretro_run_frame (lines 387-392): reset the audio frame count,
then invoke the module's run entry. -/
def libretro_run_frame (h : HostState) : HostState :=
  match h.core with
  | some m =>
    match m.run with
    | some f =>
      if h.game_loaded then { h with cb := f { h.cb with audio_data := [] } }
      else h
    | none => h
  | none => h

def libretro_is_loaded (h : HostState) : Bool := h.core.isSome

def libretro_is_game_loaded (h : HostState) : Bool := h.game_loaded

def libretro_get_width (h : HostState) : Nat := h.cb.video_width

def libretro_get_height (h : HostState) : Nat := h.cb.video_height

def libretro_get_fps (h : HostState) : ℚ := h.video_fps

def libretro_get_pixel_format (h : HostState) : Int := h.cb.pixel_format

def libretro_get_framebuffer (h : HostState) : Option (List Nat) := h.cb.framebuffer

def libretro_get_framebuffer_pitch (h : HostState) : Nat := h.cb.video_pitch

def libretro_get_sample_rate (h : HostState) : ℚ := h.audio_sample_rate

def libretro_get_audio_frames (h : HostState) : Nat := h.cb.audio_data.length

def libretro_clear_audio_buffer (h : HostState) : HostState :=
  { h with cb := { h.cb with audio_data := [] } }

/-- libretro_get_save_state_size (lines 458-463): guarded by
`core_handle && core_serialize_size` only — not by `game_loaded`. -/
def libretro_get_save_state_size (h : HostState) : Nat :=
  match h.core with
  | some m =>
    match m.serialize_size with
    | some n => n
    | none => 0
  | none => 0

/-- libretro_save_state (lines 465-470); the module's boolean verdict is
the `serialize` field. -/
def libretro_save_state (h : HostState) : Bool :=
  match h.core with
  | some m =>
    match m.serialize with
    | some r => if h.game_loaded then r else false
    | none => false
  | none => false

/-- libretro_load_state (lines 472-477). -/
def libretro_load_state (h : HostState) : Bool :=
  match h.core with
  | some m =>
    match m.unserialize with
    | some r => if h.game_loaded then r else false
    | none => false
  | none => false

/-! Concrete fixtures used by witnesses and counterexamples. -/

/-- A module exporting every symbol, with identity callback effects and
trivial return values. -/
def idModule : Module :=
  { set_environment := true, set_video_refresh := true
    set_audio_sample := true, set_audio_sample_batch := true
    set_input_poll := true, set_input_state := true
    init := some id, deinit := some id, api_version := some 1
    get_system_info := some emptySystemInfo, get_system_av_info := none
    set_controller_port_device := true, reset := some id, run := some id
    serialize_size := some 0, serialize := some true, unserialize := some true
    load_game := some true, unload_game := some id
    get_memory_data := false, get_memory_size := none }

/-- A module missing the mandatory `retro_run`. -/
def noRunModule : Module := { idModule with run := none }

/-- A module missing the optional `retro_unload_game`. -/
def noUnloadGameModule : Module := { idModule with unload_game := none }

/-- A module whose `retro_serialize_size` reports 42 bytes. -/
def sizeModule : Module := { idModule with serialize_size := some 42 }

/-- CoreLoaded state (module bound, no game) for the C1 counterexample. -/
def coreLoadedSizeState : HostState := { initialState with core := some sizeModule }

/-- GameLoaded state whose module lacks `retro_unload_game`. -/
def gameLoadedNoUnload : HostState :=
  { initialState with core := some noUnloadGameModule, game_loaded := true
                      cb := { cb0 with audio_allocated := true } }

/-! Claim theorems. -/

/-- C8: for every integer code passed with the set-pixel-format
environment command — including codes outside the three recognized
encodings — the negotiator records the code unconditionally, reports
success to the module, and the recorded value is subsequently returned
by the pixel-format getter. -/
theorem set_pixel_format_unvalidated (z : Int) (h : HostState) :
    (environment_callback RETRO_ENVIRONMENT_SET_PIXEL_FORMAT z h.cb).1 = true ∧
    libretro_get_pixel_format
      { h with cb := (environment_callback RETRO_ENVIRONMENT_SET_PIXEL_FORMAT z h.cb).2 } = z := by
  exact ⟨rfl, rfl⟩

/-- C10: when the audio buffer is not allocated, both audio callbacks
are safe no-ops: the single-sample callback leaves the state (hence the
stored frame count) unchanged, and the batch callback returns 0 and
leaves the state unchanged. -/
theorem audio_callbacks_safe_when_unallocated (left right : Int)
    (data : List (Int × Int)) (n : Nat) (s : CbState)
    (hna : s.audio_allocated = false) :
    audio_sample_callback left right s = s ∧
    (audio_sample_batch_callback data n s).1 = 0 ∧
    (audio_sample_batch_callback data n s).2 = s := by
  refine ⟨?_, ?_, ?_⟩ <;> simp [audio_sample_callback, audio_sample_batch_callback, hna]

/-- Witness for C10 at a concrete unallocated state. -/
theorem audio_callbacks_safe_when_unallocated_witness :
    cb0.audio_allocated = false ∧
    (audio_sample_callback 1 2 cb0 = cb0 ∧
     (audio_sample_batch_callback [(3, 4)] 1 cb0).1 = 0 ∧
     (audio_sample_batch_callback [(3, 4)] 1 cb0).2 = cb0) :=
  ⟨rfl, audio_callbacks_safe_when_unallocated 1 2 [(3, 4)] 1 cb0 rfl⟩

/-- C2 (code bug): at a GameLoaded state whose module does not bind the
optional unload-content entry, `libretro_unload_game` does NOT
transition to CoreLoaded — the game-loaded flag stays true, because the
C code clears it only inside the `core_unload_game` binding guard. -/
theorem unload_game_unbound_keeps_game_loaded :
    libretro_is_game_loaded gameLoadedNoUnload = true ∧
    libretro_is_game_loaded (libretro_unload_game gameLoadedNoUnload) = true ∧
    (libretro_unload_game gameLoadedNoUnload).core = some noUnloadGameModule :=
  ⟨rfl, rfl, rfl⟩

/-- C3 (code bug): `libretro_unload_core` on a GameLoaded state whose
module lacks the optional unload-content entry leaves the game-loaded
flag true while nulling the module handle, violating the invariant
"game-loaded flag true implies module handle non-null". -/
theorem unload_core_breaks_invariant :
    libretro_is_game_loaded gameLoadedNoUnload = true ∧
    libretro_is_loaded (libretro_unload_core gameLoadedNoUnload) = false ∧
    libretro_is_game_loaded (libretro_unload_core gameLoadedNoUnload) = true :=
  ⟨rfl, rfl, rfl⟩

/-- C1 counterexample: a state with a core loaded but no game loaded
(CoreLoaded) in which `libretro_get_save_state_size` returns 42, not 0:
the C guard checks `core_handle && core_serialize_size` but not
`game_loaded`. -/
theorem save_state_size_nonzero_without_game :
    libretro_is_game_loaded coreLoadedSizeState = false ∧
    libretro_is_loaded coreLoadedSizeState = true ∧
    libretro_get_save_state_size coreLoadedSizeState = 42 :=
  ⟨rfl, rfl, rfl⟩

/-- C1 amended: `libretro_save_state` and `libretro_load_state` return
false in every state with no game loaded; `libretro_get_save_state_size`
returns 0 when no core is loaded, but with a core loaded it passes the
module's reported serialize size through (0 only when that entry is
unbound), regardless of the game flag. -/
theorem save_state_gating (h : HostState) (hng : h.game_loaded = false) :
    libretro_save_state h = false ∧
    libretro_load_state h = false ∧
    (h.core = none → libretro_get_save_state_size h = 0) ∧
    (∀ m n, h.core = some m → m.serialize_size = some n →
      libretro_get_save_state_size h = n) := by
  refine ⟨?_, ?_, ?_, ?_⟩
  · unfold libretro_save_state
    cases hc : h.core with
    | none => rfl
    | some m => cases hs : m.serialize <;> simp [hs, hng]
  · unfold libretro_load_state
    cases hc : h.core with
    | none => rfl
    | some m => cases hs : m.unserialize <;> simp [hs, hng]
  · intro hc; simp [libretro_get_save_state_size, hc]
  · intro m n hc hs; simp [libretro_get_save_state_size, hc, hs]

/-- Witness for C1's amended theorem at the CoreLoaded fixture. -/
theorem save_state_gating_witness :
    coreLoadedSizeState.game_loaded = false ∧
    libretro_save_state coreLoadedSizeState = false ∧
    libretro_load_state coreLoadedSizeState = false ∧
    libretro_get_save_state_size coreLoadedSizeState = 42 := by
  have h := save_state_gating coreLoadedSizeState rfl
  exact ⟨rfl, h.1, h.2.1, h.2.2.2 sizeModule 42 rfl rfl⟩

/-- C4: a video callback with non-null data whose required size
`height * pitch` exceeds the current framebuffer capacity releases the
old storage, ends with a buffer of exactly `required` bytes whose
contents are the first `required` source bytes copied verbatim (full
padded rows), and updates the stored width, height, and pitch to the
callback's arguments. -/
theorem video_realloc_copies_exactly (src : List Nat) (width height pitch : Nat)
    (s : CbState)
    (hgrow : height * pitch > s.framebuffer_size)
    (hsrc : height * pitch ≤ src.length) :
    (video_refresh_callback (some src) width height pitch s).framebuffer =
      some (src.take (height * pitch)) ∧
    (src.take (height * pitch)).length = height * pitch ∧
    (video_refresh_callback (some src) width height pitch s).framebuffer_size =
      height * pitch ∧
    (video_refresh_callback (some src) width height pitch s).video_width = width ∧
    (video_refresh_callback (some src) width height pitch s).video_height = height ∧
    (video_refresh_callback (some src) width height pitch s).video_pitch = pitch := by
  have hdrop : (List.replicate (height * pitch) 0).drop (height * pitch) = ([] : List Nat) := by
    simp
  refine ⟨?_, ?_, ?_, ?_, ?_, ?_⟩ <;>
    simp [video_refresh_callback, hgrow, hdrop, Nat.min_eq_left hsrc]

/-- Witness for C4: a 2-row, 3-bytes-per-row frame arriving at the
initial (empty) framebuffer. -/
theorem video_realloc_copies_exactly_witness :
    (2 * 3 > cb0.framebuffer_size ∧ 2 * 3 ≤ ([10, 11, 12, 13, 14, 15] : List Nat).length) ∧
    ((video_refresh_callback (some [10, 11, 12, 13, 14, 15]) 3 2 3 cb0).framebuffer =
        some ([10, 11, 12, 13, 14, 15].take (2 * 3)) ∧
      (([10, 11, 12, 13, 14, 15] : List Nat).take (2 * 3)).length = 2 * 3 ∧
      (video_refresh_callback (some [10, 11, 12, 13, 14, 15]) 3 2 3 cb0).framebuffer_size = 2 * 3 ∧
      (video_refresh_callback (some [10, 11, 12, 13, 14, 15]) 3 2 3 cb0).video_width = 3 ∧
      (video_refresh_callback (some [10, 11, 12, 13, 14, 15]) 3 2 3 cb0).video_height = 2 ∧
      (video_refresh_callback (some [10, 11, 12, 13, 14, 15]) 3 2 3 cb0).video_pitch = 3) :=
  ⟨⟨by decide, by decide⟩,
    video_realloc_copies_exactly [10, 11, 12, 13, 14, 15] 3 2 3 cb0 (by decide) (by decide)⟩

/-- C5: with an allocated audio buffer holding `c ≤ 8192` frames, a
batch request of `n` frames accepts exactly `min n (8192 - c)` frames,
appends exactly those frames to the queue (so the count rises by the
accepted amount), and returns the accepted count. -/
theorem audio_batch_accepts_min (data : List (Int × Int)) (n : Nat) (s : CbState)
    (halloc : s.audio_allocated = true)
    (hcount : s.audio_data.length ≤ MAX_AUDIO_FRAMES)
    (hlen : data.length = n) :
    (audio_sample_batch_callback data n s).1 =
      min n (MAX_AUDIO_FRAMES - s.audio_data.length) ∧
    (audio_sample_batch_callback data n s).2.audio_data =
      s.audio_data ++ data.take (min n (MAX_AUDIO_FRAMES - s.audio_data.length)) ∧
    (audio_sample_batch_callback data n s).2.audio_data.length =
      s.audio_data.length + min n (MAX_AUDIO_FRAMES - s.audio_data.length) := by
  unfold audio_sample_batch_callback
  rw [halloc]
  simp only [Bool.true_eq_false, if_false]
  by_cases hover : s.audio_data.length + n > MAX_AUDIO_FRAMES
  · have hmin : min n (MAX_AUDIO_FRAMES - s.audio_data.length) =
        MAX_AUDIO_FRAMES - s.audio_data.length := by omega
    rw [if_pos hover, hmin]
    by_cases hpos : MAX_AUDIO_FRAMES - s.audio_data.length > 0
    · rw [if_pos hpos]
      refine ⟨rfl, rfl, ?_⟩
      simp [List.length_take, hlen]
      omega
    · rw [if_neg hpos]
      have hz : MAX_AUDIO_FRAMES - s.audio_data.length = 0 := by omega
      simp [hz]
  · have hmin : min n (MAX_AUDIO_FRAMES - s.audio_data.length) = n := by omega
    rw [if_neg hover, hmin]
    by_cases hpos : n > 0
    · rw [if_pos hpos]
      refine ⟨rfl, rfl, ?_⟩
      simp [List.length_take, hlen]
    · rw [if_neg hpos]
      have hz : n = 0 := by omega
      simp [hz]

/-- Queue fixture for the C5 witness: 8142 frames already stored, 50
slots remaining. -/
def halfFullQueue : CbState :=
  { cb0 with audio_allocated := true
             audio_data := List.replicate 8142 ((0 : Int), (0 : Int)) }

/-- Witness for C5: a batch request of 100 frames when only 50 remain
returns 50 and leaves exactly 8192 stored frames. -/
theorem audio_batch_accepts_min_witness :
    halfFullQueue.audio_allocated = true ∧
    halfFullQueue.audio_data.length ≤ MAX_AUDIO_FRAMES ∧
    (List.replicate 100 ((1 : Int), (1 : Int))).length = 100 ∧
    (audio_sample_batch_callback (List.replicate 100 ((1 : Int), (1 : Int))) 100 halfFullQueue).1 = 50 ∧
    (audio_sample_batch_callback (List.replicate 100 ((1 : Int), (1 : Int))) 100 halfFullQueue).2.audio_data.length = 8192 := by
  have hc : halfFullQueue.audio_data.length = 8142 := by
    show (List.replicate 8142 ((0 : Int), (0 : Int))).length = 8142
    rw [List.length_replicate]
  have h := audio_batch_accepts_min (List.replicate 100 ((1 : Int), (1 : Int))) 100
    halfFullQueue rfl (by rw [hc]; decide) (by simp)
  refine ⟨rfl, by rw [hc]; decide, by simp, ?_, ?_⟩
  · rw [h.1, hc]; decide
  · rw [h.2.2, hc]; decide

/-- One single-sample callback per element of `ps`, in order. -/
def audio_sample_calls (ps : List (Int × Int)) (s : CbState) : CbState :=
  ps.foldl (fun t p => audio_sample_callback p.1 p.2 t) s

theorem audio_sample_calls_length (ps : List (Int × Int)) :
    ∀ s : CbState, s.audio_allocated = true →
      s.audio_data.length ≤ MAX_AUDIO_FRAMES →
      (audio_sample_calls ps s).audio_data.length =
        min (s.audio_data.length + ps.length) MAX_AUDIO_FRAMES := by
  induction ps with
  | nil =>
    intro s _ hle
    simp [audio_sample_calls]
    omega
  | cons p ps ih =>
    intro s halloc hle
    have hstep : audio_sample_calls (p :: ps) s =
        audio_sample_calls ps (audio_sample_callback p.1 p.2 s) := rfl
    rw [hstep]
    by_cases hlt : s.audio_data.length < MAX_AUDIO_FRAMES
    · have hcb : audio_sample_callback p.1 p.2 s =
          { s with audio_data := s.audio_data ++ [(p.1, p.2)] } := by
        unfold audio_sample_callback
        rw [if_pos ⟨hlt, halloc⟩]
      rw [hcb]
      rw [ih { s with audio_data := s.audio_data ++ [(p.1, p.2)] } halloc
        (by simp; omega)]
      simp
      omega
    · have hcb : audio_sample_callback p.1 p.2 s = s := by
        unfold audio_sample_callback
        rw [if_neg (by intro hand; exact hlt hand.1)]
      rw [hcb, ih s halloc hle]
      simp
      omega

/-- C6: starting from an empty queue with the audio buffer allocated, a
run of single-sample callbacks appends while the count is below the
8192-frame capacity and silently drops afterwards, leaving exactly
`min n 8192` stored frames after `n` calls. -/
theorem audio_single_sample_saturates (ps : List (Int × Int)) (s : CbState)
    (halloc : s.audio_allocated = true) (hempty : s.audio_data = []) :
    (audio_sample_calls ps s).audio_data.length = min ps.length MAX_AUDIO_FRAMES := by
  have h := audio_sample_calls_length ps s halloc (by simp [hempty])
  rw [hempty] at h
  simpa using h

/-- Empty allocated queue for the C6 witness. -/
def emptyAllocatedQueue : CbState := { cb0 with audio_allocated := true }

/-- Witness for C6: 8200 single-sample calls in one cycle yield exactly
8192 stored frames. -/
theorem audio_single_sample_saturates_witness :
    emptyAllocatedQueue.audio_allocated = true ∧
    emptyAllocatedQueue.audio_data = [] ∧
    (audio_sample_calls (List.replicate 8200 ((0 : Int), (0 : Int)))
      emptyAllocatedQueue).audio_data.length = 8192 := by
  have h := audio_single_sample_saturates
    (List.replicate 8200 ((0 : Int), (0 : Int))) emptyAllocatedQueue rfl rfl
  refine ⟨rfl, rfl, ?_⟩
  rw [h, List.length_replicate]
  decide

/-- `libretro_unload_core` always ends with the handle closed, the
audio buffer released, and the framebuffer released. -/
theorem unload_core_clears (h : HostState) :
    (libretro_unload_core h).core = none ∧
    (libretro_unload_core h).cb.audio_allocated = false ∧
    (libretro_unload_core h).cb.framebuffer = none ∧
    (libretro_unload_core h).cb.framebuffer_size = 0 := by
  unfold libretro_unload_core
  set h1 := if h.game_loaded then libretro_unload_game h else h with hh1
  cases hc : h1.core <;> simp [hc]

/-- C7: `libretro_load_core` on a module whose exports omit any of the
four mandatory entry points (initialize, deinitialize, run,
load-content) returns false and leaves the host unloaded with no
resources: handle null, `libretro_is_loaded` false, no audio buffer
allocated.  A module with all four mandatory entry points loads
successfully regardless of which optional symbols are missing.  The
hypothesis `hinv` is the reachable-state invariant that an allocated
audio buffer implies a loaded core. -/
theorem load_core_missing_mandatory (m : Module) (h : HostState)
    (hinv : h.cb.audio_allocated = true → h.core.isSome = true) :
    ((m.init.isNone || m.deinit.isNone || m.run.isNone || m.load_game.isNone) = true →
      (libretro_load_core (some m) h).1 = false ∧
      (libretro_load_core (some m) h).2.core = none ∧
      libretro_is_loaded (libretro_load_core (some m) h).2 = false ∧
      (libretro_load_core (some m) h).2.cb.audio_allocated = false) ∧
    ((m.init.isSome && m.deinit.isSome && m.run.isSome && m.load_game.isSome) = true →
      (libretro_load_core (some m) h).1 = true) := by
  have h1fact :
      (if h.core.isSome then libretro_unload_core h else h).core = none ∧
      (if h.core.isSome then libretro_unload_core h else h).cb.audio_allocated = false := by
    by_cases hc : h.core.isSome = true
    · rw [if_pos hc]
      exact ⟨(unload_core_clears h).1, (unload_core_clears h).2.1⟩
    · rw [if_neg hc]
      constructor
      · cases hcc : h.core with
        | none => rfl
        | some mm => rw [hcc] at hc; simp at hc
      · cases ha : h.cb.audio_allocated with
        | false => rfl
        | true => exact absurd (hinv ha) hc
  constructor
  · intro hmiss
    refine ⟨?_, ?_, ?_, ?_⟩ <;>
      simp [libretro_load_core, hmiss, libretro_is_loaded, h1fact.1, h1fact.2]
  · intro hall
    simp only [Bool.and_eq_true] at hall
    obtain ⟨⟨⟨hi, hd2⟩, hr⟩, hl⟩ := hall
    obtain ⟨fi, hfi⟩ := Option.isSome_iff_exists.mp hi
    obtain ⟨fd, hfd⟩ := Option.isSome_iff_exists.mp hd2
    obtain ⟨fr, hfr⟩ := Option.isSome_iff_exists.mp hr
    obtain ⟨fl, hfl⟩ := Option.isSome_iff_exists.mp hl
    simp [libretro_load_core, hfi, hfd, hfr, hfl]

/-- Witness for C7: loading `noRunModule` (missing `retro_run`) from
the pristine initial state fails and holds no resources; loading
`idModule` (all symbols bound) succeeds. -/
theorem load_core_missing_mandatory_witness :
    (initialState.cb.audio_allocated = true → initialState.core.isSome = true) ∧
    ((noRunModule.init.isNone || noRunModule.deinit.isNone || noRunModule.run.isNone ||
        noRunModule.load_game.isNone) = true) ∧
    ((libretro_load_core (some noRunModule) initialState).1 = false ∧
      (libretro_load_core (some noRunModule) initialState).2.core = none ∧
      libretro_is_loaded (libretro_load_core (some noRunModule) initialState).2 = false ∧
      (libretro_load_core (some noRunModule) initialState).2.cb.audio_allocated = false) ∧
    (libretro_load_core (some idModule) initialState).1 = true := by
  refine ⟨fun hcontra => by exact absurd hcontra (by simp [initialState, cb0]), rfl, ?_, ?_⟩
  · exact (load_core_missing_mandatory noRunModule initialState
      (fun hcontra => by exact absurd hcontra (by simp [initialState, cb0]))).1 rfl
  · exact (load_core_missing_mandatory idModule initialState
      (fun hcontra => by exact absurd hcontra (by simp [initialState, cb0]))).2 rfl

/-- A callback-state transformer that leaves the cached video geometry
(width, height, pitch) unchanged. -/
def preservesGeom (f : CbState → CbState) : Prop :=
  ∀ s : CbState, (f s).video_width = s.video_width ∧
    (f s).video_height = s.video_height ∧ (f s).video_pitch = s.video_pitch

/-- C9: `libretro_unload_core` releases the framebuffer (the
framebuffer accessor afterwards returns null) but leaves the cached
video geometry and timing untouched: the width, height, pitch, fps and
sample-rate getters return the same values as before the unload.  The
two hypotheses restrict the module's optional unload-content and
deinitialize entries to ones that do not themselves rewrite the cached
geometry through the video callback during teardown. -/
theorem unload_core_keeps_geometry (h : HostState)
    (hug : ∀ m f, h.core = some m → m.unload_game = some f → preservesGeom f)
    (hde : ∀ m f, h.core = some m → m.deinit = some f → preservesGeom f) :
    libretro_get_framebuffer (libretro_unload_core h) = none ∧
    libretro_get_width (libretro_unload_core h) = libretro_get_width h ∧
    libretro_get_height (libretro_unload_core h) = libretro_get_height h ∧
    libretro_get_framebuffer_pitch (libretro_unload_core h) =
      libretro_get_framebuffer_pitch h ∧
    libretro_get_fps (libretro_unload_core h) = libretro_get_fps h ∧
    libretro_get_sample_rate (libretro_unload_core h) = libretro_get_sample_rate h := by
  have hstep1 :
      (if h.game_loaded then libretro_unload_game h else h).cb.video_width = h.cb.video_width ∧
      (if h.game_loaded then libretro_unload_game h else h).cb.video_height = h.cb.video_height ∧
      (if h.game_loaded then libretro_unload_game h else h).cb.video_pitch = h.cb.video_pitch ∧
      (if h.game_loaded then libretro_unload_game h else h).video_fps = h.video_fps ∧
      (if h.game_loaded then libretro_unload_game h else h).audio_sample_rate =
        h.audio_sample_rate ∧
      (if h.game_loaded then libretro_unload_game h else h).core = h.core := by
    by_cases hg : h.game_loaded
    · rw [if_pos hg]
      unfold libretro_unload_game
      cases hc : h.core with
      | none => simp [hc]
      | some m =>
        cases hu : m.unload_game with
        | none => simp [hc, hu]
        | some f =>
          have hp := hug m f hc hu h.cb
          simp [hg, hc, hu, hp.1, hp.2.1, hp.2.2]
    · rw [if_neg hg]
      exact ⟨rfl, rfl, rfl, rfl, rfl, rfl⟩
  refine ⟨(unload_core_clears h).2.2.1, ?_⟩
  unfold libretro_unload_core
  set h1 := if h.game_loaded then libretro_unload_game h else h with hh1
  cases hc : h1.core with
  | none =>
    simp only [hc]
    exact ⟨hstep1.1, hstep1.2.1, hstep1.2.2.1, hstep1.2.2.2.1, hstep1.2.2.2.2.1⟩
  | some m =>
    have hcm : h.core = some m := hstep1.2.2.2.2.2 ▸ hc
    cases hd : m.deinit with
    | none =>
      simp only [hc, hd]
      exact ⟨hstep1.1, hstep1.2.1, hstep1.2.2.1, hstep1.2.2.2.1, hstep1.2.2.2.2.1⟩
    | some f =>
      have hp := hde m f hcm hd h1.cb
      simp only [hc, hd]
      refine ⟨?_, ?_, ?_, ?_, ?_⟩ <;>
        simp [libretro_get_width, libretro_get_height, libretro_get_framebuffer_pitch,
          libretro_get_fps, libretro_get_sample_rate, hp.1, hp.2.1, hp.2.2,
          hstep1.1, hstep1.2.1, hstep1.2.2.1, hstep1.2.2.2.1, hstep1.2.2.2.2.1]

/-- A GameLoaded state with cached geometry and timing from a session. -/
def sessionState : HostState :=
  { initialState with
      core := some idModule
      game_loaded := true
      cb := { cb0 with video_width := 320, video_height := 240, video_pitch := 1280
                       framebuffer := some (List.replicate 4 0), framebuffer_size := 4
                       audio_allocated := true }
      video_fps := 60, audio_sample_rate := 32040 }

/-- Witness for C9: unloading the session state frees the framebuffer
but the geometry and timing getters are unchanged. -/
theorem unload_core_keeps_geometry_witness :
    (∀ m f, sessionState.core = some m → m.unload_game = some f → preservesGeom f) ∧
    (∀ m f, sessionState.core = some m → m.deinit = some f → preservesGeom f) ∧
    (libretro_get_framebuffer (libretro_unload_core sessionState) = none ∧
      libretro_get_width (libretro_unload_core sessionState) =
        libretro_get_width sessionState ∧
      libretro_get_height (libretro_unload_core sessionState) =
        libretro_get_height sessionState ∧
      libretro_get_framebuffer_pitch (libretro_unload_core sessionState) =
        libretro_get_framebuffer_pitch sessionState ∧
      libretro_get_fps (libretro_unload_core sessionState) =
        libretro_get_fps sessionState ∧
      libretro_get_sample_rate (libretro_unload_core sessionState) =
        libretro_get_sample_rate sessionState) := by
  have hug : ∀ m f, sessionState.core = some m → m.unload_game = some f → preservesGeom f := by
    intro m f hm hf
    have hm' : m = idModule := (Option.some.inj hm).symm
    subst hm'
    have hf' : f = id := (Option.some.inj hf).symm
    subst hf'
    intro s
    exact ⟨rfl, rfl, rfl⟩
  have hde : ∀ m f, sessionState.core = some m → m.deinit = some f → preservesGeom f := by
    intro m f hm hf
    have hm' : m = idModule := (Option.some.inj hm).symm
    subst hm'
    have hf' : f = id := (Option.some.inj hf).symm
    subst hf'
    intro s
    exact ⟨rfl, rfl, rfl⟩
  exact ⟨hug, hde, unload_core_keeps_geometry sessionState hug hde⟩

end LibretroCore
